import Mathlib

/-!
Shallow embedding of the `simple-todo-api` Express application
(`src/index.js` and `src/models/todo.js`).

The application exposes four session-scoped CRUD endpoints over a Mongo
collection of todo documents, plus an hourly cron job that is supposed to
purge expired sessions and their todos.  We embed:

* the JSON values exchanged with the client,
* the zod request-body validation (`todoSchema` and `todoSchema.partial()`),
* the mongoose document store (a list of `Todo` records; `find`,
  `findOneAndUpdate`, `findOneAndDelete`, `deleteMany` become list
  operations, with ObjectId casting of the `:id` route parameter),
* the four route handlers, including which of them wrap their body in a
  `try/catch` (POST and PATCH do; GET and DELETE do not),
* the cron sweep callback together with the `getAllSessions` helper.

Stateful behaviour is modelled by explicit state passing over `AppState`;
errors thrown by JavaScript code are modelled with `Except`.
-/

/-- JSON values, as produced by `body-parser` and consumed by `res.json`. -/
inductive Json where
  | str : String → Json
  | bool : Bool → Json
  | num : Int → Json
  | null : Json
  | arr : List Json → Json
  | obj : List (String × Json) → Json

/-- Key list of a JSON object (empty for non-objects). -/
def jsonKeys : Json → List String
  | Json.obj fields => fields.map Prod.fst
  | _ => []

/-- Field lookup in a JSON object body, as JavaScript property access. -/
def lookupField (body : List (String × Json)) (k : String) : Option Json :=
  match body.find? (fun kv => kv.fst == k) with
  | some kv => some kv.snd
  | none => none

/-- A mongoose `Todo` document (`src/models/todo.js`): `text` required,
`completed` defaulting to `false`, `sessionId` required, plus the Mongo
primary key `_id`. -/
structure Todo where
  _id : String
  text : String
  completed : Bool
  sessionId : String
deriving DecidableEq, Repr

/-- A session document as stored by `connect-mongodb-session`: the cron
callback reads `session._id` and `session.expires` (a timestamp, here in
milliseconds). -/
structure Session where
  _id : String
  expires : Int
deriving DecidableEq, Repr

/-- The persistent state: the `todos` collection and the `sessions`
collection. -/
structure AppState where
  todos : List Todo
  sessions : List Session
deriving DecidableEq, Repr

/-- Default mongoose JSON serialization of a `Todo` document, as sent by
`res.json({ ok: true, result: todo })`: every stored path is included —
`_id`, `text`, `completed`, `sessionId` — plus the version key `__v`
(0 for the documents this API creates). The schema defines no `toJSON`
transform, so nothing is hidden and no `id` alias is produced. -/
def serializeTodo (t : Todo) : Json :=
  Json.obj [("_id", Json.str t._id), ("text", Json.str t.text),
    ("completed", Json.bool t.completed), ("sessionId", Json.str t.sessionId),
    ("__v", Json.num 0)]

/-- The key list of a default mongoose document serialization. -/
def mongooseDocKeys : List String :=
  ["_id", "text", "completed", "sessionId", "__v"]

/-- One issue of a zod validation error, as found in `e.errors`. -/
structure ZodIssue where
  code : String
  path : List String
  message : String
deriving DecidableEq, Repr

/-- JSON serialization of one zod issue. -/
def issueJson (i : ZodIssue) : Json :=
  Json.obj [("code", Json.str i.code), ("path", Json.arr (i.path.map Json.str)),
    ("message", Json.str i.message)]

/-- The 400 body `{ ok: false, error: e.errors }` sent by the POST and
PATCH catch blocks when zod validation fails. -/
def badRequestBody (issues : List ZodIssue) : Json :=
  Json.obj [("ok", Json.bool false), ("error", Json.arr (issues.map issueJson))]

/-- The 400 body sent by the PATCH catch block when the thrown error is a
mongoose `CastError`: a `CastError` has no `errors` property, so
`{ ok: false, error: e.errors }` serializes to `{ ok: false }`. -/
def castErrorBody : Json :=
  Json.obj [("ok", Json.bool false)]

/-- The 404 body `{ ok: false, error: "not_found" }`. -/
def notFoundBody : Json :=
  Json.obj [("ok", Json.bool false), ("error", Json.str "not_found")]

/-- Success envelope `{ ok: true, result: r }`. -/
def okResult (r : Json) : Json :=
  Json.obj [("ok", Json.bool true), ("result", r)]

/-- Result of `todoSchema.parse`: `z.object` strips unknown keys, so only
`text` and `completed` survive — in particular a `sessionId` supplied in
the request body is dropped. -/
structure ParsedTodo where
  text : String
  completed : Option Bool
deriving DecidableEq, Repr

/-- Result of `todoSchema.partial().parse`: both fields optional. -/
structure PatchTodo where
  text : Option String
  completed : Option Bool
deriving DecidableEq, Repr

/-- zod check of the `text` field: `z.string().min(1, "Text is required")`.
Missing yields an `invalid_type` issue, a non-string an `invalid_type`
issue, an empty string the `too_small` issue with the custom message. -/
def checkText (body : List (String × Json)) : Except ZodIssue String :=
  match lookupField body "text" with
  | none => Except.error ⟨"invalid_type", ["text"], "Required"⟩
  | some (Json.str s) =>
      if s.length ≥ 1 then Except.ok s
      else Except.error ⟨"too_small", ["text"], "Text is required"⟩
  | some _ => Except.error ⟨"invalid_type", ["text"], "Expected string"⟩

/-- zod check of the `completed` field: `z.boolean().optional()`. -/
def checkCompleted (body : List (String × Json)) : Except ZodIssue (Option Bool) :=
  match lookupField body "completed" with
  | none => Except.ok none
  | some (Json.bool b) => Except.ok (some b)
  | some _ => Except.error ⟨"invalid_type", ["completed"], "Expected boolean"⟩

/-- `todoSchema.parse(req.body)`: both field checks run and all issues are
collected into the thrown `ZodError`. -/
def parseTodoSchema (body : List (String × Json)) :
    Except (List ZodIssue) ParsedTodo :=
  match checkText body, checkCompleted body with
  | Except.ok t, Except.ok c => Except.ok ⟨t, c⟩
  | Except.error e, Except.ok _ => Except.error [e]
  | Except.ok _, Except.error e => Except.error [e]
  | Except.error e1, Except.error e2 => Except.error [e1, e2]

/-- `todoSchema.partial().parse(req.body)`: `text`, when present, must
still be a string of length at least 1; `completed`, when present, a
boolean; unknown keys are stripped. -/
def parsePatchSchema (body : List (String × Json)) :
    Except (List ZodIssue) PatchTodo :=
  let textRes : Except ZodIssue (Option String) :=
    match lookupField body "text" with
    | none => Except.ok none
    | some (Json.str s) =>
        if s.length ≥ 1 then Except.ok (some s)
        else Except.error ⟨"too_small", ["text"], "Text is required"⟩
    | some _ => Except.error ⟨"invalid_type", ["text"], "Expected string"⟩
  match textRes, checkCompleted body with
  | Except.ok t, Except.ok c => Except.ok ⟨t, c⟩
  | Except.error e, Except.ok _ => Except.error [e]
  | Except.ok _, Except.error e => Except.error [e]
  | Except.error e1, Except.error e2 => Except.error [e1, e2]

/-- Hexadecimal digit test, for ObjectId casting. -/
def isHexDigit (c : Char) : Bool :=
  c.isDigit || (97 ≤ c.toNat && c.toNat ≤ 102) || (65 ≤ c.toNat && c.toNat ≤ 70)

/-- Modelled from mongoose ObjectId casting of the `:id` route parameter:
a string casts iff it is a 24-character hexadecimal string (or a
12-character string, taken as raw bytes); any other string makes the query
throw a `CastError`. -/
def isValidObjectId (s : String) : Bool :=
  s.length == 12 || (s.length == 24 && s.toList.all isHexDigit)

/-- The double-match filter `{ _id: id, sessionId: sid }` used by the
PATCH and DELETE handlers. -/
def matchesIdAndSession (id sid : String) (t : Todo) : Bool :=
  t._id == id && t.sessionId == sid

/-- `Todo.find({ sessionId: sid })`: all documents of the session, in
store order. -/
def listTodos (sid : String) (st : AppState) : List Todo :=
  st.todos.filter (fun t => t.sessionId == sid)

/-- Mongoose update semantics of `findOneAndUpdate(filter, todoData)`:
the update object `$set`s exactly the fields present in the parsed patch. -/
def applyPatch (p : PatchTodo) (t : Todo) : Todo :=
  { t with text := p.text.getD t.text, completed := p.completed.getD t.completed }

/-- `Todo.findOneAndUpdate(filter, todoData, { new: true })` on the
collection list: updates the first matching document and returns the
updated document (`new: true`) together with the new collection; `none`
when no document matches. -/
def findOneAndUpdate (p : Todo → Bool) (f : Todo → Todo) :
    List Todo → Option (Todo × List Todo)
  | [] => none
  | t :: ts =>
      if p t then some (f t, f t :: ts)
      else
        match findOneAndUpdate p f ts with
        | none => none
        | some (u, rest) => some (u, t :: rest)

/-- `Todo.findOneAndDelete(filter)` on the collection list: removes the
first matching document and returns it with the remaining collection;
`none` when no document matches. -/
def findOneAndDelete (p : Todo → Bool) :
    List Todo → Option (Todo × List Todo)
  | [] => none
  | t :: ts =>
      if p t then some (t, ts)
      else
        match findOneAndDelete p ts with
        | none => none
        | some (u, rest) => some (u, t :: rest)

/-- Errors a handler can throw past its own code: the only uncaught
request-path error in this model is the mongoose `CastError` raised when
the `:id` route parameter is not a valid ObjectId. -/
inductive ReqError where
  | castError : ReqError
deriving DecidableEq, Repr

/-- Outcome of one request: either an HTTP response was sent, or an error
escaped the handler (Express 4 does not catch a rejected `async` handler,
so such an error surfaces as an unhandled promise rejection at the process
level). -/
inductive HandlerOutcome where
  | response : Nat → Json → HandlerOutcome
  | uncaught : ReqError → HandlerOutcome

/-- Status code of an outcome; `none` when no response was produced. -/
def statusOf : HandlerOutcome → Option Nat
  | HandlerOutcome.response s _ => some s
  | HandlerOutcome.uncaught _ => none

/-- True iff the outcome is an HTTP response (the error, if any, was
translated rather than propagated). -/
def isHttpResponse (o : HandlerOutcome) : Bool :=
  (statusOf o).isSome

/-- Items carried in the `result` field of a response: the array elements
for List, the single document object for Create and Update, nothing for
error bodies, `result: null` and uncaught outcomes. -/
def resultItems (o : HandlerOutcome) : List Json :=
  match o with
  | HandlerOutcome.response _ (Json.obj fields) =>
      match lookupField fields "result" with
      | some (Json.arr js) => js
      | some (Json.obj f) => [Json.obj f]
      | _ => []
  | _ => []

/-- GET `/api/todos`: with a falsy session id the handler short-circuits
to an empty list; otherwise it returns the session's documents. The
handler has no try/catch, but `Todo.find` has no failure mode in this
model. -/
def getHandler (sid : String) (st : AppState) : HandlerOutcome :=
  if sid == "" then
    HandlerOutcome.response 200 (okResult (Json.arr []))
  else
    HandlerOutcome.response 200
      (okResult (Json.arr ((listTodos sid st).map serializeTodo)))

/-- POST `/api/todos`: `todoSchema.parse` inside a try/catch; on success a
new document is built from the parsed data spread together with
`sessionId: req.sessionID` (so the owner is always the caller's session),
`completed` defaulting to `false` per the mongoose schema, and saved.
`freshId` is the ObjectId mongoose generates for the new document. -/
def postHandler (sid freshId : String) (body : List (String × Json))
    (st : AppState) : HandlerOutcome × AppState :=
  match parseTodoSchema body with
  | Except.error issues =>
      (HandlerOutcome.response 400 (badRequestBody issues), st)
  | Except.ok td =>
      let todo : Todo :=
        { _id := freshId, text := td.text, completed := td.completed.getD false,
          sessionId := sid }
      (HandlerOutcome.response 200 (okResult (serializeTodo todo)),
       { st with todos := st.todos ++ [todo] })

/-- PATCH `/api/todos/:id`: partial parse, then
`findOneAndUpdate({ _id, sessionId }, todoData, { new: true })`, all inside
a try/catch — a `CastError` on a malformed id is therefore caught and
answered with 400 (body `{ ok: false }`, since a `CastError` has no
`errors`). No match yields 404; a match yields 200 with the updated
document. -/
def patchHandler (sid id : String) (body : List (String × Json))
    (st : AppState) : HandlerOutcome × AppState :=
  match parsePatchSchema body with
  | Except.error issues =>
      (HandlerOutcome.response 400 (badRequestBody issues), st)
  | Except.ok pd =>
      if isValidObjectId id then
        match findOneAndUpdate (matchesIdAndSession id sid) (applyPatch pd) st.todos with
        | none => (HandlerOutcome.response 404 notFoundBody, st)
        | some (t, rest) =>
            (HandlerOutcome.response 200 (okResult (serializeTodo t)),
             { st with todos := rest })
      else
        (HandlerOutcome.response 400 castErrorBody, st)

/-- DELETE `/api/todos/:id`: `findOneAndDelete({ _id, sessionId })` with NO
try/catch — a `CastError` on a malformed id escapes the handler. No match
yields 404; a match yields 200 with `{ ok: true, result: null }`. -/
def deleteHandler (sid id : String) (st : AppState) :
    HandlerOutcome × AppState :=
  if isValidObjectId id then
    match findOneAndDelete (matchesIdAndSession id sid) st.todos with
    | none => (HandlerOutcome.response 404 notFoundBody, st)
    | some (_, rest) =>
        (HandlerOutcome.response 200 (okResult Json.null),
         { st with todos := rest })
  else
    (HandlerOutcome.uncaught ReqError.castError, st)

/-- Errors that a sweep execution can raise. `typeError` is the JavaScript
`TypeError` thrown when the `Promise` constructor is invoked without
`new`; `storeErr` stands for a failure of a session-store operation. -/
inductive SweepErr where
  | typeError : SweepErr
  | storeErr : SweepErr
deriving DecidableEq, Repr

/-- What one execution of the scheduled callback logs: either the success
message with the count of cleaned sessions, or the caught error. -/
inductive SweepLog where
  | cleaned : Nat → SweepLog
  | errorLogged : SweepErr → SweepLog
deriving DecidableEq, Repr

/-- The `getAllSessions` helper of `src/index.js`:

  function getAllSessions() \x7b
    return Promise((res, rej) => \x7b
      store.all((err, obj) => (err ? rej(err) : res(obj)));
    \x7d);
  \x7d

`Promise(...)` is called without `new`; per the ECMAScript specification
the `Promise` constructor throws a `TypeError` when invoked without `new`,
before the executor — and hence `store.all` — ever runs. The helper
therefore always throws, regardless of the store contents. -/
def getAllSessions (_st : AppState) : Except SweepErr (List Session) :=
  Except.error SweepErr.typeError

/-- `store.destroy(sessionId)` on the modelled state. -/
def destroySession (sid : String) (st : AppState) : AppState :=
  { st with sessions := st.sessions.filter (fun s => s._id != sid) }

/-- The body of the cron callback (the part inside `try`): enumerate
sessions, keep those with `expires` before `now`, then run the per-session
cleanup `store.destroy(sessionId).then(Todo.deleteMany({ sessionId }))`
for each and report the count. Two faithfulness notes: (a) this code is
unreachable past the first line, because `getAllSessions` always throws;
(b) even on the dead path, `Todo.deleteMany({ sessionId })` builds a
mongoose query that is passed to `.then` as a non-function — `.then`
ignores non-callable arguments and nobody ever awaits the query, so the
todos would not be deleted; only `store.destroy` would run. -/
def sweepBody (now : Int) (st : AppState) : Except SweepErr (AppState × Nat) :=
  match getAllSessions st with
  | Except.error e => Except.error e
  | Except.ok sessions =>
      let expiredSessionIds :=
        (sessions.filter (fun s => decide (s.expires < now))).map (fun s => s._id)
      let st2 := expiredSessionIds.foldl (fun acc sid => destroySession sid acc) st
      Except.ok (st2, expiredSessionIds.length)

/-- One execution of the scheduled callback: the whole body is wrapped in
`try/catch`, the catch only logs, so the callback always returns normally
— with the state as the body left it. -/
def sweepTick (now : Int) (st : AppState) : AppState × SweepLog :=
  match sweepBody now st with
  | Except.ok (st2, n) => (st2, SweepLog.cleaned n)
  | Except.error e => (st, SweepLog.errorLogged e)

/-- Example fixtures used by the concrete (witness and counterexample)
theorems below. ObjectIds are 24-character hexadecimal strings, as
mongoose generates. -/
def oidA : String := "aaaaaaaaaaaaaaaaaaaaaaaa"

def oidB : String := "bbbbbbbbbbbbbbbbbbbbbbbb"

def oidC : String := "cccccccccccccccccccccccc"

def todoA : Todo := ⟨oidA, "buy milk", false, "sessA"⟩

def todoB : Todo := ⟨oidB, "walk dog", true, "sessA"⟩

def todoC : Todo := ⟨oidC, "read book", false, "sessB"⟩

def sessionA : Session := ⟨"sessA", 100⟩

def sessionB : Session := ⟨"sessB", 1000000⟩

def exState : AppState := ⟨[todoA, todoB, todoC], [sessionA, sessionB]⟩

/-- Fixture state for the sweeper theorems: one expired session owning two
todos. -/
def exStateSweep : AppState := ⟨[todoA, todoB], [sessionA]⟩

/-- The key list of a serialized document is always the full mongoose key
list. -/
theorem jsonKeys_serializeTodo (t : Todo) :
    jsonKeys (serializeTodo t) = mongooseDocKeys := rfl

/-- When no document matches the filter, `findOneAndUpdate` returns
`none`. -/
theorem findOneAndUpdate_none (p : Todo → Bool) (f : Todo → Todo)
    (l : List Todo) (h : ∀ u ∈ l, p u = false) :
    findOneAndUpdate p f l = none := by
  induction l with
  | nil => rfl
  | cons a l ih =>
      have ha := h a (List.mem_cons_self a l)
      simp [findOneAndUpdate, ha,
        ih (fun u hu => h u (List.mem_cons_of_mem a hu))]

/-- When no document matches the filter, `findOneAndDelete` returns
`none`. -/
theorem findOneAndDelete_none (p : Todo → Bool) (l : List Todo)
    (h : ∀ u ∈ l, p u = false) :
    findOneAndDelete p l = none := by
  induction l with
  | nil => rfl
  | cons a l ih =>
      have ha := h a (List.mem_cons_self a l)
      simp [findOneAndDelete, ha,
        ih (fun u hu => h u (List.mem_cons_of_mem a hu))]

/-- When the only document matching the filter is `t`, `findOneAndUpdate`
returns the updated `t` and a collection that contains the updated
document and keeps every other document. -/
theorem findOneAndUpdate_found (p : Todo → Bool) (f : Todo → Todo)
    (l : List Todo) (t : Todo) (hmem : t ∈ l) (hp : p t = true)
    (huniq : ∀ u ∈ l, p u = true → u = t) :
    ∃ rest, findOneAndUpdate p f l = some (f t, rest) ∧ f t ∈ rest ∧
      ∀ u ∈ l, u ≠ t → u ∈ rest := by
  induction l with
  | nil => cases hmem
  | cons a l ih =>
      by_cases hpa : p a = true
      · have hat : a = t := huniq a (List.mem_cons_self a l) hpa
        subst hat
        refine ⟨f a :: l, by simp [findOneAndUpdate, hpa],
          List.mem_cons_self _ _, ?_⟩
        intro u hu hne
        rcases List.mem_cons.mp hu with h1 | h1
        · exact absurd h1 hne
        · exact List.mem_cons_of_mem _ h1
      · have hpa' : p a = false := by simpa using hpa
        have hat : a ≠ t := fun h => by rw [h, hp] at hpa'; cases hpa'
        have hmem' : t ∈ l := by
          rcases List.mem_cons.mp hmem with h1 | h1
          · exact absurd h1.symm hat
          · exact h1
        obtain ⟨rest, heq, hf, hothers⟩ :=
          ih hmem' (fun u hu hp' => huniq u (List.mem_cons_of_mem a hu) hp')
        refine ⟨a :: rest, by simp [findOneAndUpdate, hpa', heq],
          List.mem_cons_of_mem _ hf, ?_⟩
        intro u hu hne
        rcases List.mem_cons.mp hu with h1 | h1
        · exact h1 ▸ List.mem_cons_self a rest
        · exact List.mem_cons_of_mem _ (hothers u h1 hne)

/-- When the collection has no duplicates and the only document matching
the filter is `t`, `findOneAndDelete` returns `t` and a collection from
which `t` is gone, in which no document matches the filter any more, and
which keeps every other document. -/
theorem findOneAndDelete_found (p : Todo → Bool) (l : List Todo) (t : Todo)
    (hnd : l.Nodup) (hmem : t ∈ l) (hp : p t = true)
    (huniq : ∀ u ∈ l, p u = true → u = t) :
    ∃ rest, findOneAndDelete p l = some (t, rest) ∧ t ∉ rest ∧
      (∀ u ∈ rest, p u = false) ∧ ∀ u ∈ l, u ≠ t → u ∈ rest := by
  induction l with
  | nil => cases hmem
  | cons a l ih =>
      by_cases hpa : p a = true
      · have hat : a = t := huniq a (List.mem_cons_self a l) hpa
        subst hat
        refine ⟨l, by simp [findOneAndDelete, hpa],
          (List.nodup_cons.mp hnd).1, ?_, ?_⟩
        · intro u hu
          by_contra hc
          have hu' : u = a :=
            huniq u (List.mem_cons_of_mem a hu) (by simpa using hc)
          rw [hu'] at hu
          exact (List.nodup_cons.mp hnd).1 hu
        · intro u hu hne
          rcases List.mem_cons.mp hu with h1 | h1
          · exact absurd h1 hne
          · exact h1
      · have hpa' : p a = false := by simpa using hpa
        have hat : a ≠ t := fun h => by rw [h, hp] at hpa'; cases hpa'
        have hmem' : t ∈ l := by
          rcases List.mem_cons.mp hmem with h1 | h1
          · exact absurd h1.symm hat
          · exact h1
        obtain ⟨rest, heq, hnotmem, hnomatch, hothers⟩ :=
          ih (List.nodup_cons.mp hnd).2 hmem'
            (fun u hu hp' => huniq u (List.mem_cons_of_mem a hu) hp')
        refine ⟨a :: rest, by simp [findOneAndDelete, hpa', heq], ?_, ?_, ?_⟩
        · intro hc
          rcases List.mem_cons.mp hc with h1 | h1
          · exact hat h1.symm
          · exact hnotmem h1
        · intro u hu
          rcases List.mem_cons.mp hu with h1 | h1
          · exact h1 ▸ hpa'
          · exact hnomatch u h1
        · intro u hu hne
          rcases List.mem_cons.mp hu with h1 | h1
          · exact h1 ▸ List.mem_cons_self a rest
          · exact List.mem_cons_of_mem _ (hothers u h1 hne)

/-- In a collection with pairwise distinct `_id`s, a document of `t`'s
session id that matches the double-match filter for `t._id` is `t`
itself. -/
theorem matches_unique (l : List Todo) (t : Todo) (sid : String)
    (hnd : (l.map Todo._id).Nodup) (hmem : t ∈ l) :
    ∀ u ∈ l, matchesIdAndSession t._id sid u = true → u = t := by
  intro u hu hmatch
  simp only [matchesIdAndSession, Bool.and_eq_true, beq_iff_eq] at hmatch
  exact List.inj_on_of_nodup_map hnd hu hmem hmatch.1

/-- In a collection with pairwise distinct `_id`s, the double-match filter
for `t._id` under a session other than `t`'s matches no document. -/
theorem matches_other_session_false (l : List Todo) (t : Todo)
    (s1 s2 : String) (hnd : (l.map Todo._id).Nodup) (hmem : t ∈ l)
    (ht : t.sessionId = s1) (hne : s1 ≠ s2) :
    ∀ u ∈ l, matchesIdAndSession t._id s2 u = false := by
  intro u hu
  by_contra hc
  have hm : matchesIdAndSession t._id s2 u = true := by simpa using hc
  simp only [matchesIdAndSession, Bool.and_eq_true, beq_iff_eq] at hm
  have hut : u = t := List.inj_on_of_nodup_map hnd hu hmem hm.1
  rw [hut, ht] at hm
  exact hne hm.2

/-- C1: the claim says one execution of the scheduled sweep callback
removes every session whose `expiresAt` is in the past together with all
its items. The code cannot do this: `getAllSessions` invokes the `Promise`
constructor without `new`, which throws a `TypeError` at every tick; the
surrounding catch logs it and the sweep deletes nothing. At the concrete
failing input — a state holding the session `sessA`, expired (`expires =
100 < 200 = now`), owning `todoA` and `todoB` — one tick leaves the state
unchanged: the expired session and both its items are still present. -/
theorem sweep_tick_removes_nothing :
    sessionA.expires < 200 ∧
    sweepTick 200 exStateSweep =
      (exStateSweep, SweepLog.errorLogged SweepErr.typeError) ∧
    sessionA ∈ (sweepTick 200 exStateSweep).1.sessions ∧
    todoA ∈ (sweepTick 200 exStateSweep).1.todos ∧
    todoB ∈ (sweepTick 200 exStateSweep).1.todos :=
  ⟨by decide, rfl, by decide, by decide, by decide⟩

/-- C9: any error raised by the body of the scheduled sweep callback is
caught by the callback's try/catch and only logged: the callback returns
normally with the state it had, so the error neither terminates the
process nor prevents the next scheduled tick. -/
theorem sweep_error_caught_and_logged (now : Int) (st : AppState)
    (e : SweepErr) (h : sweepBody now st = Except.error e) :
    sweepTick now st = (st, SweepLog.errorLogged e) := by
  simp [sweepTick, h]

/-- Witness for C9 at a concrete input: the tick at time 200 over the
fixture state catches the `TypeError` thrown by `getAllSessions`. -/
theorem sweep_error_caught_and_logged_witness :
    sweepTick 200 exState = (exState, SweepLog.errorLogged SweepErr.typeError) :=
  sweep_error_caught_and_logged 200 exState SweepErr.typeError rfl

/-- C3 counterexample: the claim says every item serialized in a success
response has exactly the shape with keys `id`, `text`, `completed` and
never includes `sessionId`. At the concrete input — Create of text "hi"
under session "s1" on an empty store — the 200 response carries the full
mongoose document, whose key list includes `sessionId` (as well as `_id`
and `__v`) and is not the claimed one. -/
theorem create_response_exposes_sessionId :
    (postHandler "s1" oidC [("text", Json.str "hi")] ⟨[], []⟩).1 =
      HandlerOutcome.response 200
        (okResult (serializeTodo ⟨oidC, "hi", false, "s1"⟩)) ∧
    "sessionId" ∈ jsonKeys (serializeTodo ⟨oidC, "hi", false, "s1"⟩) ∧
    jsonKeys (serializeTodo ⟨oidC, "hi", false, "s1"⟩) ≠
      ["id", "text", "completed"] :=
  ⟨rfl, by decide, by decide⟩

/-- Evaluation of `resultItems` on a list success envelope. -/
theorem resultItems_ok_arr (s : Nat) (js : List Json) :
    resultItems (HandlerOutcome.response s (okResult (Json.arr js))) = js := rfl

/-- Evaluation of `resultItems` on a single-document success envelope. -/
theorem resultItems_ok_doc (s : Nat) (t : Todo) :
    resultItems (HandlerOutcome.response s (okResult (serializeTodo t))) =
      [serializeTodo t] := rfl

/-- Evaluation of `resultItems` on a zod 400 body. -/
theorem resultItems_badRequest (s : Nat) (issues : List ZodIssue) :
    resultItems (HandlerOutcome.response s (badRequestBody issues)) = [] := rfl

/-- Evaluation of `resultItems` on the 404 body. -/
theorem resultItems_notFound (s : Nat) :
    resultItems (HandlerOutcome.response s notFoundBody) = [] := rfl

/-- Evaluation of `resultItems` on the cast-error 400 body. -/
theorem resultItems_castError (s : Nat) :
    resultItems (HandlerOutcome.response s castErrorBody) = [] := rfl

/-- C3 amended: every item serialized in a success response of List,
Create, or Update is the default mongoose serialization of the stored
document, with exactly the keys `_id`, `text`, `completed`, `sessionId`,
`__v` — in particular `sessionId` is sent to the client. -/
theorem response_items_are_full_documents :
    (∀ sid st j, j ∈ resultItems (getHandler sid st) →
      jsonKeys j = mongooseDocKeys) ∧
    (∀ sid freshId body st j,
      j ∈ resultItems (postHandler sid freshId body st).1 →
      jsonKeys j = mongooseDocKeys) ∧
    (∀ sid id body st j,
      j ∈ resultItems (patchHandler sid id body st).1 →
      jsonKeys j = mongooseDocKeys) := by
  refine ⟨?_, ?_, ?_⟩
  · intro sid st j hj
    unfold getHandler at hj
    by_cases hsid : sid == ""
    · rw [if_pos hsid, resultItems_ok_arr] at hj
      cases hj
    · rw [if_neg hsid, resultItems_ok_arr] at hj
      obtain ⟨t, _, rfl⟩ := List.mem_map.mp hj
      exact jsonKeys_serializeTodo t
  · intro sid freshId body st j hj
    match hp : parseTodoSchema body with
    | Except.error issues =>
        simp only [postHandler, hp] at hj
        rw [resultItems_badRequest] at hj
        cases hj
    | Except.ok td =>
        simp only [postHandler, hp] at hj
        rw [resultItems_ok_doc, List.mem_singleton] at hj
        subst hj
        exact jsonKeys_serializeTodo _
  · intro sid id body st j hj
    match hp : parsePatchSchema body with
    | Except.error issues =>
        simp only [patchHandler, hp] at hj
        rw [resultItems_badRequest] at hj
        cases hj
    | Except.ok pd =>
        by_cases hv : isValidObjectId id
        · match hf : findOneAndUpdate (matchesIdAndSession id sid)
              (applyPatch pd) st.todos with
          | none =>
              simp only [patchHandler, hp, hv, if_true, hf] at hj
              rw [resultItems_notFound] at hj
              cases hj
          | some (t, rest) =>
              simp only [patchHandler, hp, hv, if_true, hf] at hj
              rw [resultItems_ok_doc, List.mem_singleton] at hj
              subst hj
              exact jsonKeys_serializeTodo _
        · simp only [patchHandler, hp, hv, Bool.false_eq_true, if_false] at hj
          rw [resultItems_castError] at hj
          cases hj

/-- Witness for C3's amended theorem at a concrete input: the first item
listed for session "sessA" of the fixture state carries the full mongoose
key list. -/
theorem response_items_are_full_documents_witness :
    jsonKeys (serializeTodo todoA) = mongooseDocKeys := by
  refine response_items_are_full_documents.1 "sessA" exState
    (serializeTodo todoA) ?_
  show serializeTodo todoA ∈ [serializeTodo todoA, serializeTodo todoB]
  exact List.mem_cons_self _ _

/-- C8 counterexample: the claim says every request-path error is caught
at the operation boundary and translated into an HTTP response. At the
concrete input — DELETE with id "bad", which fails ObjectId casting — the
handler, which has no try/catch, lets the `CastError` escape: no HTTP
response is produced and the rejection surfaces at the process level. -/
theorem delete_cast_error_escapes :
    (deleteHandler "s1" "bad" exState).1 =
      HandlerOutcome.uncaught ReqError.castError ∧
    statusOf (deleteHandler "s1" "bad" exState).1 = none :=
  ⟨rfl, rfl⟩

/-- C8 amended: errors in Create and Update are caught at the operation
boundary and translated into HTTP responses, and List always responds;
but Delete has no try/catch: when the id parameter fails ObjectId
casting, the error escapes the handler uncaught (only a Delete whose id
casts produces an HTTP response). -/
theorem request_errors_translated_except_delete :
    (∀ sid freshId body st,
      isHttpResponse (postHandler sid freshId body st).1 = true) ∧
    (∀ sid id body st,
      isHttpResponse (patchHandler sid id body st).1 = true) ∧
    (∀ sid st, isHttpResponse (getHandler sid st) = true) ∧
    (∀ sid id st, isValidObjectId id = false →
      (deleteHandler sid id st).1 = HandlerOutcome.uncaught ReqError.castError) ∧
    (∀ sid id st, isValidObjectId id = true →
      isHttpResponse (deleteHandler sid id st).1 = true) := by
  refine ⟨?_, ?_, ?_, ?_, ?_⟩
  · intro sid freshId body st
    match hp : parseTodoSchema body with
    | Except.error issues => simp [postHandler, hp, isHttpResponse, statusOf]
    | Except.ok td => simp [postHandler, hp, isHttpResponse, statusOf]
  · intro sid id body st
    match hp : parsePatchSchema body with
    | Except.error issues => simp [patchHandler, hp, isHttpResponse, statusOf]
    | Except.ok pd =>
        by_cases hv : isValidObjectId id
        · match hf : findOneAndUpdate (matchesIdAndSession id sid)
              (applyPatch pd) st.todos with
          | none => simp [patchHandler, hp, hv, hf, isHttpResponse, statusOf]
          | some (t, rest) =>
              simp [patchHandler, hp, hv, hf, isHttpResponse, statusOf]
        · simp [patchHandler, hp, hv, isHttpResponse, statusOf]
  · intro sid st
    by_cases hsid : sid == "" <;> simp [getHandler, hsid, isHttpResponse, statusOf]
  · intro sid id st hv
    simp [deleteHandler, hv]
  · intro sid id st hv
    match hf : findOneAndDelete (matchesIdAndSession id sid) st.todos with
    | none => simp [deleteHandler, hv, hf, isHttpResponse, statusOf]
    | some (t, rest) => simp [deleteHandler, hv, hf, isHttpResponse, statusOf]

/-- Witness for C8's amended theorem at a concrete input: a Delete whose
id casts produces an HTTP response. -/
theorem request_errors_translated_except_delete_witness :
    isHttpResponse (deleteHandler "s1" oidA exState).1 = true :=
  request_errors_translated_except_delete.2.2.2.2 "s1" oidA exState (by decide)

/-- C2: an Item owned by session `s1` is never returned by List under a
different session `s2`, and Update or Delete under `s2` targeting its id
answer 404 with the opaque not-found body and leave the state unchanged —
the double-match filter is the authorization boundary. -/
theorem session_isolation (s1 s2 : String) (t : Todo) (st : AppState)
    (body : List (String × Json)) (pd : PatchTodo)
    (hne : s1 ≠ s2) (ht : t.sessionId = s1) (hmem : t ∈ st.todos)
    (hnd : (st.todos.map Todo._id).Nodup)
    (hvalid : isValidObjectId t._id = true)
    (hbody : parsePatchSchema body = Except.ok pd) :
    t ∉ listTodos s2 st ∧
    patchHandler s2 t._id body st =
      (HandlerOutcome.response 404 notFoundBody, st) ∧
    deleteHandler s2 t._id st =
      (HandlerOutcome.response 404 notFoundBody, st) := by
  have hall := matches_other_session_false st.todos t s1 s2 hnd hmem ht hne
  refine ⟨?_, ?_, ?_⟩
  · intro hc
    have hpred := (List.mem_filter.mp hc).2
    rw [ht] at hpred
    exact hne (by simpa using hpred)
  · have hf := findOneAndUpdate_none (matchesIdAndSession t._id s2)
      (applyPatch pd) st.todos hall
    simp only [patchHandler, hbody, hvalid, if_true, hf]
  · have hf := findOneAndDelete_none (matchesIdAndSession t._id s2) st.todos hall
    simp only [deleteHandler, hvalid, if_true, hf]

/-- Witness for C2 at a concrete input: Delete of `todoA` (owned by
session "sessA") under session "sessB" answers 404 and changes nothing. -/
theorem session_isolation_witness :
    deleteHandler "sessB" todoA._id exState =
      (HandlerOutcome.response 404 notFoundBody, exState) := by
  obtain ⟨-, -, h⟩ := session_isolation "sessA" "sessB" todoA exState
    [("completed", Json.bool true)] ⟨none, some true⟩
    (by decide) rfl (by decide) (by decide) (by decide) rfl
  exact h

/-- C4: a Create whose body lacks `text` or carries the empty string
fails with 400, a validation error whose issue list names the `text`
field, and persists nothing; a Create whose body passes validation
persists a new Item owned by the caller's session and returns it with
status 200. -/
theorem create_validation_and_persistence (sid freshId : String)
    (body : List (String × Json)) (st : AppState) :
    ((lookupField body "text" = none ∨
        lookupField body "text" = some (Json.str "")) →
      ∃ issues, parseTodoSchema body = Except.error issues ∧
        (postHandler sid freshId body st).1 =
          HandlerOutcome.response 400 (badRequestBody issues) ∧
        (postHandler sid freshId body st).2 = st ∧
        ∃ i ∈ issues, i.path = ["text"]) ∧
    (∀ td, parseTodoSchema body = Except.ok td →
      (postHandler sid freshId body st).1 = HandlerOutcome.response 200
        (okResult (serializeTodo ⟨freshId, td.text, td.completed.getD false, sid⟩)) ∧
      (postHandler sid freshId body st).2.todos =
        st.todos ++ [⟨freshId, td.text, td.completed.getD false, sid⟩]) := by
  constructor
  · intro h
    obtain ⟨i, hi, hip⟩ :
        ∃ i, checkText body = Except.error i ∧ i.path = ["text"] := by
      rcases h with h | h
      · exact ⟨⟨"invalid_type", ["text"], "Required"⟩, by simp [checkText, h], rfl⟩
      · exact ⟨⟨"too_small", ["text"], "Text is required"⟩, by simp [checkText, h], rfl⟩
    match hc : checkCompleted body with
    | Except.ok c =>
        have hps : parseTodoSchema body = Except.error [i] := by
          simp only [parseTodoSchema, hi, hc]
        exact ⟨[i], hps, by simp only [postHandler, hps],
          by simp only [postHandler, hps], i, List.mem_singleton.mpr rfl, hip⟩
    | Except.error e =>
        have hps : parseTodoSchema body = Except.error [i, e] := by
          simp only [parseTodoSchema, hi, hc]
        exact ⟨[i, e], hps, by simp only [postHandler, hps],
          by simp only [postHandler, hps], i, List.mem_cons_self _ _, hip⟩
  · intro td hp
    exact ⟨by simp only [postHandler, hp], by simp only [postHandler, hp]⟩

/-- Witness for C4 at a concrete input: Create with `text` the empty
string persists nothing. -/
theorem create_validation_and_persistence_witness :
    (postHandler "s1" oidC [("text", Json.str "")] exState).2 = exState := by
  obtain ⟨issues, -, -, hs, -⟩ :=
    (create_validation_and_persistence "s1" oidC
      [("text", Json.str "")] exState).1 (Or.inr rfl)
  exact hs

/-- C5: Create of a non-empty `text` (with `completed` omitted) followed
by List under the same session yields a result set containing an Item
with that text and `completed = false`. -/
theorem create_then_list_contains (sid freshId text : String) (st : AppState)
    (htext : text ≠ "") (hsid : sid ≠ "") :
    ∃ t, t ∈ listTodos sid (postHandler sid freshId
        [("text", Json.str text)] st).2 ∧
      serializeTodo t ∈ resultItems (getHandler sid (postHandler sid freshId
        [("text", Json.str text)] st).2) ∧
      t.text = text ∧ t.completed = false := by
  have hlen : 1 ≤ text.length := by
    by_contra hc
    push_neg at hc
    have h0 : text.length = 0 := by omega
    obtain ⟨data⟩ := text
    have hdata : data = [] := List.length_eq_zero.mp h0
    subst hdata
    exact htext rfl
  have hct : checkText [("text", Json.str text)] = Except.ok text := by
    have hifeq : checkText [("text", Json.str text)] =
        if text.length ≥ 1 then Except.ok text
        else Except.error ⟨"too_small", ["text"], "Text is required"⟩ := rfl
    rw [hifeq, if_pos hlen]
  have hparse : parseTodoSchema [("text", Json.str text)] =
      Except.ok ⟨text, none⟩ := by
    unfold parseTodoSchema
    rw [hct]
    rfl
  have hpost : postHandler sid freshId [("text", Json.str text)] st =
      (HandlerOutcome.response 200
        (okResult (serializeTodo ⟨freshId, text, false, sid⟩)),
       { st with todos := st.todos ++ [⟨freshId, text, false, sid⟩] }) := by
    unfold postHandler
    rw [hparse]
    rfl
  have hmemnew : (⟨freshId, text, false, sid⟩ : Todo) ∈
      listTodos sid { st with todos := st.todos ++ [⟨freshId, text, false, sid⟩] } := by
    refine List.mem_filter.mpr ⟨List.mem_append_right _ ?_, by simp⟩
    exact List.mem_singleton.mpr rfl
  refine ⟨⟨freshId, text, false, sid⟩, ?_, ?_, rfl, rfl⟩
  · rw [hpost]
    exact hmemnew
  · rw [hpost]
    unfold getHandler
    rw [if_neg (by simp [hsid]), resultItems_ok_arr]
    exact List.mem_map_of_mem _ hmemnew

/-- Witness for C5 at a concrete input: Create of "new" under session
"s9" on the empty store, then List under "s9". -/
theorem create_then_list_contains_witness :
    ∃ t, t ∈ listTodos "s9" (postHandler "s9" oidC
        [("text", Json.str "new")] ⟨[], []⟩).2 ∧
      serializeTodo t ∈ resultItems (getHandler "s9" (postHandler "s9" oidC
        [("text", Json.str "new")] ⟨[], []⟩).2) ∧
      t.text = "new" ∧ t.completed = false :=
  create_then_list_contains "s9" oidC "new" ⟨[], []⟩ (by decide) (by decide)

/-- C6: Update with a patch body containing only `completed: true` sets
`completed` and leaves `text`, `_id` and `sessionId` unchanged (the
response carries the original document with only `completed` flipped),
and every other document of the store is kept. -/
theorem patch_completed_only (sid : String) (t : Todo) (st : AppState)
    (hmem : t ∈ st.todos) (hsid : t.sessionId = sid)
    (hnd : (st.todos.map Todo._id).Nodup)
    (hvalid : isValidObjectId t._id = true) :
    (patchHandler sid t._id [("completed", Json.bool true)] st).1 =
      HandlerOutcome.response 200
        (okResult (serializeTodo { t with completed := true })) ∧
    { t with completed := true } ∈
      (patchHandler sid t._id [("completed", Json.bool true)] st).2.todos ∧
    ∀ u ∈ st.todos, u ≠ t →
      u ∈ (patchHandler sid t._id [("completed", Json.bool true)] st).2.todos := by
  have hp : parsePatchSchema [("completed", Json.bool true)] =
      Except.ok ⟨none, some true⟩ := rfl
  have hpt : matchesIdAndSession t._id sid t = true := by
    simp [matchesIdAndSession, hsid]
  have huniq := matches_unique st.todos t sid hnd hmem
  obtain ⟨rest, hf, hmemf, hothers⟩ := findOneAndUpdate_found
    (matchesIdAndSession t._id sid) (applyPatch ⟨none, some true⟩)
    st.todos t hmem hpt huniq
  have happ : applyPatch ⟨none, some true⟩ t = { t with completed := true } := rfl
  rw [happ] at hf hmemf
  have hph : patchHandler sid t._id [("completed", Json.bool true)] st =
      (HandlerOutcome.response 200
        (okResult (serializeTodo { t with completed := true })),
       { st with todos := rest }) := by
    simp only [patchHandler, hp, hvalid, if_true, hf]
  rw [hph]
  exact ⟨rfl, hmemf, fun u hu hne => hothers u hu hne⟩

/-- Witness for C6 at a concrete input: patching `todoA` with only
`completed: true` answers 200 with `todoA`'s text intact. -/
theorem patch_completed_only_witness :
    (patchHandler "sessA" todoA._id [("completed", Json.bool true)] exState).1 =
      HandlerOutcome.response 200
        (okResult (serializeTodo { todoA with completed := true })) := by
  obtain ⟨h, -, -⟩ := patch_completed_only "sessA" todoA exState
    (by decide) rfl (by decide) (by decide)
  exact h

/-- C7: Delete of an existing Item under its owning session answers 200
with body `ok: true, result: null` and removes the Item; a second Delete
of the same id answers 404 with the not-found body and changes nothing. -/
theorem delete_twice_success_then_not_found (sid : String) (t : Todo)
    (st : AppState) (hmem : t ∈ st.todos) (hsid : t.sessionId = sid)
    (hnd : (st.todos.map Todo._id).Nodup)
    (hvalid : isValidObjectId t._id = true) :
    (deleteHandler sid t._id st).1 =
      HandlerOutcome.response 200 (okResult Json.null) ∧
    t ∉ (deleteHandler sid t._id st).2.todos ∧
    deleteHandler sid t._id (deleteHandler sid t._id st).2 =
      (HandlerOutcome.response 404 notFoundBody,
       (deleteHandler sid t._id st).2) := by
  have hpt : matchesIdAndSession t._id sid t = true := by
    simp [matchesIdAndSession, hsid]
  have huniq := matches_unique st.todos t sid hnd hmem
  have hndl : st.todos.Nodup := List.Nodup.of_map _ hnd
  obtain ⟨rest, hf, hnotmem, hnomatch, hothers⟩ := findOneAndDelete_found
    (matchesIdAndSession t._id sid) st.todos t hndl hmem hpt huniq
  have hd1 : deleteHandler sid t._id st =
      (HandlerOutcome.response 200 (okResult Json.null),
       { st with todos := rest }) := by
    simp only [deleteHandler, hvalid, if_true, hf]
  have hf2 : findOneAndDelete (matchesIdAndSession t._id sid) rest = none :=
    findOneAndDelete_none _ _ hnomatch
  have hd2 : deleteHandler sid t._id { st with todos := rest } =
      (HandlerOutcome.response 404 notFoundBody, { st with todos := rest }) := by
    simp only [deleteHandler, hvalid, if_true, hf2]
  rw [hd1]
  exact ⟨rfl, hnotmem, hd2⟩

/-- Witness for C7 at a concrete input: deleting `todoB` from the fixture
state succeeds. -/
theorem delete_twice_success_then_not_found_witness :
    (deleteHandler "sessA" todoB._id exState).1 =
      HandlerOutcome.response 200 (okResult Json.null) := by
  obtain ⟨h, -, -⟩ := delete_twice_success_then_not_found "sessA" todoB exState
    (by decide) rfl (by decide) (by decide)
  exact h

/-- C10: whatever the request body contains, every document the Create
handler adds to the store is owned by the caller's session: zod strips a
`sessionId` (or any unrecognized field) from the body, and the handler
sets `sessionId` from `req.sessionID` after the spread, so ownership
cannot be forged. -/
theorem create_owner_is_caller (sid freshId : String)
    (body : List (String × Json)) (st : AppState) :
    ∀ t ∈ (postHandler sid freshId body st).2.todos,
      t ∈ st.todos ∨ t.sessionId = sid := by
  intro t ht
  match hp : parseTodoSchema body with
  | Except.error issues =>
      simp only [postHandler, hp] at ht
      exact Or.inl ht
  | Except.ok td =>
      simp only [postHandler, hp] at ht
      rcases List.mem_append.mp ht with h | h
      · exact Or.inl h
      · right
        rw [List.mem_singleton.mp h]

/-- Witness for C10 at a concrete input: a body that tries to forge
`sessionId: "victim"` still yields a document owned by the caller's
session "s1". -/
theorem create_owner_is_caller_witness :
    (⟨oidC, "hack", false, "s1"⟩ : Todo) ∈ exState.todos ∨
      (⟨oidC, "hack", false, "s1"⟩ : Todo).sessionId = "s1" :=
  create_owner_is_caller "s1" oidC
    [("text", Json.str "hack"), ("sessionId", Json.str "victim")] exState
    ⟨oidC, "hack", false, "s1"⟩ (by decide)
